import Mathlib

/-!
Shallow embedding of `src/custom_tensorflow_keras_nlp/Headline Classifier
Local.ipynb`, a linear notebook that loads a news-headline dataset, encodes
labels, tokenizes and pads headlines, loads a GloVe embedding matrix, splits
train/test, builds and trains a small Keras convolutional model, and exposes a
`classify` callback printing a predicted label and confidence.

Library calls (Keras `pad_sequences`, `np.argmax`, `np.save`,
sklearn `train_test_split`, Keras layer/compile/fit semantics) are embedded
following their documented behaviour, since the notebook delegates those steps
wholesale; the notebook's own glue code is translated line by line.
-/

namespace HeadlineClassifier

/-! ## CSV loading (notebook cell: `pd.read_csv`) -/

/-- The fixed column names passed to `pd.read_csv` for the dataset
(`column_names = ["TITLE", "URL", "PUBLISHER", "CATEGORY", "STORY",
"HOSTNAME", "TIMESTAMP"]`). -/
def column_names : List String :=
  ["TITLE", "URL", "PUBLISHER", "CATEGORY", "STORY", "HOSTNAME", "TIMESTAMP"]

/-- The arguments of a `pd.read_csv` call as made by the notebook:
the file path, the explicit column names, the header row (if any), and the
field delimiter. -/
structure ReadCsvConfig where
  file : String
  names : List String
  header : Option Nat
  delimiter : Char
  deriving DecidableEq

/-- The notebook's dataframe load:
`df = pd.read_csv("data/newsCorpora.csv", names=column_names, header=None,
delimiter="\t")`. -/
def df_read_config : ReadCsvConfig :=
  { file := "data/newsCorpora.csv"
    names := column_names
    header := none
    delimiter := '\t' }

/-! ## Keras `pad_sequences` and `np.argmax` -/

/-- Keras `pad_sequences(..., maxlen, padding="post")` on a single sequence:
with the default `truncating="pre"`, a sequence longer than `maxlen` keeps its
last `maxlen` entries; a shorter one is extended with zeros at the end
(post-padding). -/
def pad_sequences (maxlen : Nat) (seq : List Nat) : List Nat :=
  let truncated := seq.drop (seq.length - maxlen)
  truncated ++ List.replicate (maxlen - truncated.length) 0

/-- Helper for `argmax`: scans the remaining entries, keeping the value and
index of the strictly greatest element seen so far (ties keep the earliest
index, as `np.argmax` does). -/
def argmaxGo : List ℚ → ℚ → Nat → Nat → Nat
  | [], _, best_ix, _ => best_ix
  | y :: ys, best, best_ix, i =>
      if best < y then argmaxGo ys y i (i + 1) else argmaxGo ys best best_ix (i + 1)

/-- `np.argmax` over a (flattened) list of rationals: the index of the first
occurrence of the maximum. -/
def argmax : List ℚ → Nat
  | [] => 0
  | x :: xs => argmaxGo xs x 0 1

/-! ## The `classify` callback

The notebook's callback is

```
def classify(text):
    encoded_example = tokenizer.texts_to_sequences([text])
    max_length = 40
    padded_example = pad_sequences(encoded_example, maxlen=max_length, padding="post")
    result = model.predict(padded_example)
    ix = np.argmax(result)
    print(f"Predicted class: '{labels[ix]}' with confidence {result[0][ix]:.2%}")
```

The fitted tokenizer is embedded as a function `tokenize : String → List Nat`
(`texts_to_sequences` applied to the one-element batch `[text]` yields the
one-row list `[tokenize text]`), and the trained model as
`predict : List Nat → List ℚ`, mapping a padded sequence to its
class-probability row; `model.predict` on a batch maps `predict` over the
rows.  `np.argmax(result)` flattens the row list. -/
def classify (tokenize : String → List Nat) (predict : List Nat → List ℚ)
    (labs : List String) (text : String) : String × ℚ :=
  let encoded_example := [tokenize text]
  let max_length := 40
  let padded_example := encoded_example.map (pad_sequences max_length)
  let result := padded_example.map predict
  let ix := argmax result.flatten
  (labs.getD ix "", (result.getD 0 []).getD ix 0)

/-! ## The Keras model (notebook cell: `model = Sequential()` ...) -/

/-- Keras activation functions named in the notebook's layer constructors. -/
inductive Activation
  | relu
  | softmax
  deriving DecidableEq

/-- A Keras layer as configured by the notebook's `model.add` calls; each
constructor carries exactly the arguments the notebook passes.  The
`Embedding` layer carries its pretrained weight matrix and the `trainable`
flag. -/
inductive Layer
  | Embedding (input_dim output_dim : Nat) (weights : List (List ℚ))
      (input_length : Nat) (trainable : Bool) (lname : String)
  | Conv1D (filters kernel_size : Nat) (activation : Activation) (lname : String)
  | MaxPooling1D (pool_size : Nat) (lname : String)
  | Flatten (lname : String)
  | Dropout (rate : ℚ) (lname : String)
  | Dense (units : Nat) (activation : Activation) (lname : String)
  deriving DecidableEq

/-- The kind of a layer (its constructor), used to state the topology. -/
inductive LayerKind
  | embedding
  | conv1d
  | maxpooling1d
  | flatten
  | dropout
  | dense
  deriving DecidableEq

/-- Map each layer to its kind. -/
def layerKind : Layer → LayerKind
  | .Embedding _ _ _ _ _ _ => .embedding
  | .Conv1D _ _ _ _ => .conv1d
  | .MaxPooling1D _ _ => .maxpooling1d
  | .Flatten _ => .flatten
  | .Dropout _ _ => .dropout
  | .Dense _ _ _ => .dense

/-- The activation a layer was configured with, if any. -/
def layerActivation : Layer → Option Activation
  | .Conv1D _ _ a _ => some a
  | .Dense _ a _ => some a
  | _ => none

/-- The `Sequential` model built by the notebook's seven `model.add` calls, as
the ordered list of its layers.  `vocab_size` is `embedding_matrix.shape[0]`
and `embedding_matrix` the GloVe matrix; `num_classes = len(labels)`.  The
forward/backward pass, optimizer and embedding lookup are not defined in the
notebook and are delegated to Keras, so the model is embedded as its
configuration. -/
def buildModel (vocab_size : Nat) (embedding_matrix : List (List ℚ))
    (num_classes : Nat) : List Layer :=
  [ .Embedding vocab_size 100 embedding_matrix 40 false "embed",
    .Conv1D 128 3 .relu "conv_1",
    .MaxPooling1D 5 "maxpool_1",
    .Flatten "flat_1",
    .Dropout (3 / 10) "dropout_1",
    .Dense 128 .relu "dense_1",
    .Dense num_classes .softmax "out_1" ]

/-! ## Saved arrays (notebook cells: `np.save(...)`) -/

/-- Which in-memory array a given `np.save` call persists. -/
inductive SavedArray
  | embeddingMatrix
  | trainX
  | trainY
  | testX
  | testY
  deriving DecidableEq

/-- The `np.save` calls made by the notebook, in program order, as pairs of
the `file` argument passed and the array saved. -/
def notebook_save_args : List (String × SavedArray) :=
  [ ("./data/embeddings/docs-embedding-matrix", .embeddingMatrix),
    ("./data/train/train_X.npy", .trainX),
    ("./data/train/train_Y.npy", .trainY),
    ("./data/test/test_X.npy", .testX),
    ("./data/test/test_Y.npy", .testY) ]

/-- `np.save`'s documented path handling: the `.npy` extension is appended to
the filename if it does not already have one. -/
def np_save_path (file : String) : String :=
  if file.toList.reverse.take 4 = ['y', 'p', 'n', '.'] then file
  else file ++ ".npy"

/-- The relative paths at which the notebook's `np.save` calls actually
persist their arrays. -/
def notebook_save_paths : List String :=
  notebook_save_args.map (fun a => np_save_path a.1)

/-! ## Label encoding (notebook cell: `util.preprocessing.dummy_encode_labels`) -/

/-- Modelled from the spec: `util.preprocessing.dummy_encode_labels` lives in
the repository's `util` package, which is not among the provided sources.
The spec says the CATEGORY column holds "one of four class labels (business,
entertainment, health, science/technology)" (the notebook's own markdown
codes them b, e, m, t) and that labels are one-hot encoded.  `labels` is the
list of the four class labels. -/
def labels : List String := ["business", "entertainment", "health", "science/technology"]

/-- A one-hot vector of length `n` with the 1 at index `i`. -/
def one_hot (n i : Nat) : List Nat :=
  (List.range n).map (fun j => if j = i then 1 else 0)

/-- Modelled from the spec: `util.preprocessing.dummy_encode_labels(df,
"CATEGORY")` (source not provided) returns the one-hot ("dummy") encoding of
the CATEGORY column together with the list of class labels; each row's
category is encoded as the one-hot vector at that label's index. -/
def dummy_encode_labels (cats : List String) : List (List Nat) × List String :=
  (cats.map (fun c => one_hot labels.length (labels.indexOf c)), labels)

/-- The notebook's `num_classes = len(labels)`. -/
def num_classes : Nat := labels.length

/-! ## Training with a frozen embedding layer (notebook cell: `model.fit`) -/

/-- Whether Keras treats a layer's weights as trainable: the notebook passes
`trainable=False` only to the Embedding layer; every other layer is trainable
by default. -/
def layerTrainable : Layer → Bool
  | .Embedding _ _ _ _ t _ => t
  | _ => true

/-- One optimizer step of `model.fit`, following Keras's documented
semantics for frozen layers: the weights of each trainable layer are replaced
by an arbitrary optimizer update `upd`, and layers whose `trainable` flag is
false are left untouched. -/
def trainStep (upd : Layer → Layer) (layers : List Layer) : List Layer :=
  layers.map (fun l => if layerTrainable l then upd l else l)

/-- `model.fit` as `n` successive optimizer steps. -/
def fit (upd : Layer → Layer) : Nat → List Layer → List Layer
  | 0, layers => layers
  | Nat.succ n, layers => fit upd n (trainStep upd layers)

/-! ## Train/test split (notebook cell: `train_test_split`) -/

/-- sklearn's `train_test_split(padded_docs, encoded_y, test_size=0.2,
random_state=42)`, embedded per its documented behaviour: with a float
`test_size`, the test set gets `ceil(test_size * n)` rows (`(n + 4) / 5` for
`test_size = 0.2`); the rows are shuffled by a permutation determined
entirely by `random_state` (embedded as a rotation, a fixed executable
permutation) and the same permutation is applied to both arrays; the test
set takes the first `n_test` shuffled rows and the train set the rest.
Returns `(X_train, X_test, y_train, y_test)`. -/
def train_test_split {α β : Type} (xs : List α) (ys : List β)
    (random_state : Nat) : List α × List α × List β × List β :=
  let n_test := (xs.length + 4) / 5
  let xp := xs.rotate random_state
  let yp := ys.rotate random_state
  (xp.drop n_test, xp.take n_test, yp.drop n_test, yp.take n_test)

/-! ## Model compilation (notebook cell: `model.compile`) -/

/-- The arguments of the notebook's `model.compile` call:
`optimizer = tf.keras.optimizers.RMSprop(learning_rate=0.001)`,
`loss="binary_crossentropy"`, `metrics=["acc"]`. -/
structure CompileConfig where
  optimizer : String
  learning_rate : ℚ
  loss : String
  metrics : List String

/-- The notebook's compile configuration. -/
def compile_config : CompileConfig :=
  { optimizer := "RMSprop"
    learning_rate := 1 / 1000
    loss := "binary_crossentropy"
    metrics := ["acc"] }

/-- One binary cross-entropy term `-(y·log p + (1-y)·log(1-p))`,
parametrized by the logarithm used (kept abstract so the definition stays
executable over ℚ). -/
def bce_term (log : ℚ → ℚ) (y p : ℚ) : ℚ :=
  -(y * log p + (1 - y) * log (1 - p))

/-- Keras `binary_crossentropy` per its documented semantics: the mean over
the class axis of the per-class binary cross-entropy terms. -/
def binary_crossentropy (log : ℚ → ℚ) (y p : List ℚ) : ℚ :=
  (List.zipWith (bce_term log) y p).sum / (y.length : ℚ)

/-- Keras `categorical_crossentropy` per its documented semantics:
`-Σ y_i · log p_i`. -/
def categorical_crossentropy (log : ℚ → ℚ) (y p : List ℚ) : ℚ :=
  -(List.zipWith (fun a b => a * log b) y p).sum

/-- The loss function Keras resolves a compile-time loss name to. -/
def keras_loss (log : ℚ → ℚ) (lossName : String) : List ℚ → List ℚ → ℚ :=
  if lossName = "binary_crossentropy" then binary_crossentropy log
  else if lossName = "categorical_crossentropy" then categorical_crossentropy log
  else fun _ _ => 0

/-! ## `classify` with fallible library calls (error handling)

The notebook wraps no statement in `try`/`except`; in particular `classify`
is a straight line of library calls.  To state that failures propagate
uncaught, the two library calls inside `classify` that can raise (the
tokenizer and `model.predict`) are given `Except`-valued embeddings, and the
final `labels[ix]` subscript raises `IndexError` when out of range; `classify`
sequences them with no handler, so the first error is the result. -/
def classifyE (tokenize : String → Except String (List Nat))
    (predict : List Nat → Except String (List ℚ))
    (labs : List String) (text : String) : Except String (String × ℚ) :=
  match tokenize text with
  | .error e => .error e
  | .ok encoded =>
    match predict (pad_sequences 40 encoded) with
    | .error e => .error e
    | .ok result =>
      let ix := argmax result
      match labs.get? ix with
      | none => .error "IndexError"
      | some lab => .ok (lab, result.getD ix 0)

/-! ## Theorems -/

/-- Claim C1: for every input string, `classify` computes the model's
class-probability vector for that string (the prediction on the tokenized,
padded-to-40 sequence), and the label it prints is `labels[argmax(result)]`
while the confidence it prints is the probability at that same argmax
index of that vector. -/
theorem classify_prints_argmax_label_and_confidence
    (tokenize : String → List Nat) (predict : List Nat → List ℚ)
    (labs : List String) (text : String) :
    classify tokenize predict labs text =
      (labs.getD (argmax (predict (pad_sequences 40 (tokenize text)))) "",
       (predict (pad_sequences 40 (tokenize text))).getD
         (argmax (predict (pad_sequences 40 (tokenize text)))) 0) := by
  simp [classify]

/-- Claim C3: the dataset is read as a tab-delimited CSV with no header row
and exactly the seven fixed columns TITLE, URL, PUBLISHER, CATEGORY, STORY,
HOSTNAME, TIMESTAMP, in that order. -/
theorem read_csv_tab_no_header_seven_columns :
    df_read_config.delimiter = '\t' ∧
    df_read_config.header = none ∧
    df_read_config.names =
      ["TITLE", "URL", "PUBLISHER", "CATEGORY", "STORY", "HOSTNAME", "TIMESTAMP"] ∧
    df_read_config.names.length = 7 := by
  refine ⟨rfl, rfl, rfl, rfl⟩

/-- Claim C4: every token sequence handed to the model by `classify` is
padded or truncated to exactly the fixed length 40, and when no truncation is
needed the padding is post-padding (zeros appended at the end). -/
theorem padded_input_has_fixed_length_forty (seq : List Nat) :
    (pad_sequences 40 seq).length = 40 ∧
    (seq.length ≤ 40 →
      pad_sequences 40 seq = seq ++ List.replicate (40 - seq.length) 0) := by
  constructor
  · simp only [pad_sequences, List.length_append, List.length_drop,
      List.length_replicate]
    omega
  · intro h
    have hdrop : seq.length - 40 = 0 := by omega
    simp [pad_sequences, hdrop]

/-- Witness for C4 at a concrete short sequence. -/
theorem padded_input_has_fixed_length_forty_witness :
    (pad_sequences 40 [5, 9, 2]).length = 40 ∧
    pad_sequences 40 [5, 9, 2] = [5, 9, 2] ++ List.replicate 37 0 :=
  ⟨(padded_input_has_fixed_length_forty [5, 9, 2]).1,
   (padded_input_has_fixed_length_forty [5, 9, 2]).2 (by decide)⟩

/-- Claim C2: the model is a sequential topology of exactly seven layers, in
the order Embedding, Conv1D, MaxPooling1D, Flatten, Dropout, Dense with relu,
Dense with softmax (the first five carrying no activation of their own except
Conv1D's relu, per the notebook's constructor calls). -/
theorem model_is_seven_layer_sequential (vocab_size num_classes : Nat)
    (embedding_matrix : List (List ℚ)) :
    (buildModel vocab_size embedding_matrix num_classes).length = 7 ∧
    (buildModel vocab_size embedding_matrix num_classes).map layerKind =
      [.embedding, .conv1d, .maxpooling1d, .flatten, .dropout, .dense, .dense] ∧
    (buildModel vocab_size embedding_matrix num_classes).map layerActivation =
      [none, some .relu, none, none, none, some .relu, some .softmax] := by
  refine ⟨rfl, rfl, rfl⟩

/-- Counterexample for C5: the claim locates the persisted embedding matrix
at `./data/embeddings/docs-embedding-matrix`, but `np.save` appends the
`.npy` extension to a filename that lacks it, so no array is persisted at
that exact path: the call writes `./data/embeddings/docs-embedding-matrix.npy`
instead.  Concretely, the list of paths written differs from the claim's
list of paths. -/
theorem save_paths_counterexample :
    notebook_save_paths ≠
      [ "./data/embeddings/docs-embedding-matrix",
        "./data/train/train_X.npy",
        "./data/train/train_Y.npy",
        "./data/test/test_X.npy",
        "./data/test/test_Y.npy" ] := by
  decide

/-- Claim C5 (amended): the notebook persists exactly five numeric arrays in
binary `.npy` format under fixed relative paths — the embedding matrix via
`np.save` on the path argument `./data/embeddings/docs-embedding-matrix`
(hence on disk at `./data/embeddings/docs-embedding-matrix.npy`), and the
train/test splits at `./data/train/train_X.npy`, `./data/train/train_Y.npy`,
`./data/test/test_X.npy`, `./data/test/test_Y.npy`. -/
theorem five_arrays_saved_at_fixed_paths :
    notebook_save_args.length = 5 ∧
    notebook_save_args.map (fun a => a.2) =
      [.embeddingMatrix, .trainX, .trainY, .testX, .testY] ∧
    notebook_save_paths =
      [ "./data/embeddings/docs-embedding-matrix.npy",
        "./data/train/train_X.npy",
        "./data/train/train_Y.npy",
        "./data/test/test_X.npy",
        "./data/test/test_Y.npy" ] := by
  refine ⟨rfl, rfl, by decide⟩

/-- Claim C6: `classify` contains no error-handling branch — whichever of its
fallible library calls fails first, the exception it raises is the result of
the whole call, unchanged: a tokenizer failure propagates, and when the
tokenizer succeeds a `model.predict` failure propagates. -/
theorem classify_propagates_exceptions
    (tokenize : String → Except String (List Nat))
    (predict : List Nat → Except String (List ℚ))
    (labs : List String) (text : String) :
    (∀ e, tokenize text = .error e →
        classifyE tokenize predict labs text = .error e) ∧
    (∀ e seq, tokenize text = .ok seq →
        predict (pad_sequences 40 seq) = .error e →
        classifyE tokenize predict labs text = .error e) := by
  constructor
  · intro e he
    simp [classifyE, he]
  · intro e seq hok he
    simp [classifyE, hok, he]

/-- Witness for C6: a missing-file error raised by the tokenizer, and a
shape-mismatch error raised by `model.predict`, each reach the caller of
`classify` unchanged. -/
theorem classify_propagates_exceptions_witness :
    classifyE (fun _ => .error "FileNotFoundError") (fun _ => .ok [1])
      ["b", "e", "m", "t"] "some headline" = .error "FileNotFoundError" ∧
    classifyE (fun _ => .ok [1, 2]) (fun _ => .error "InvalidArgumentError")
      ["b", "e", "m", "t"] "some headline" = .error "InvalidArgumentError" :=
  ⟨(classify_propagates_exceptions (fun _ => .error "FileNotFoundError")
      (fun _ => .ok [1]) ["b", "e", "m", "t"] "some headline").1
      "FileNotFoundError" rfl,
   (classify_propagates_exceptions (fun _ => .ok [1, 2])
      (fun _ => .error "InvalidArgumentError") ["b", "e", "m", "t"]
      "some headline").2 "InvalidArgumentError" [1, 2] rfl rfl⟩

/-- Claim C7: there are exactly four category labels; each encoded label is a
one-hot vector of length four (exactly one entry equal to 1, the other three
equal to 0); and the model's output layer is a Dense layer with exactly
`num_classes = len(labels) = 4` units. -/
theorem four_labels_one_hot_output_layer (vocab_size : Nat)
    (embedding_matrix : List (List ℚ)) (cats : List String)
    (h : ∀ c ∈ cats, c ∈ labels) :
    labels.length = 4 ∧ num_classes = 4 ∧
    (buildModel vocab_size embedding_matrix num_classes).getLast? =
      some (Layer.Dense num_classes Activation.softmax "out_1") ∧
    ∀ row ∈ (dummy_encode_labels cats).1,
      row.length = 4 ∧ row.count 1 = 1 ∧ row.count 0 = 3 := by
  refine ⟨rfl, rfl, rfl, ?_⟩
  intro row hrow
  simp only [dummy_encode_labels, List.mem_map] at hrow
  obtain ⟨c, hc, rfl⟩ := hrow
  have hcl := h c hc
  simp only [labels, List.mem_cons, List.not_mem_nil, or_false] at hcl
  rcases hcl with rfl | rfl | rfl | rfl <;> decide

/-- Witness for C7 at a concrete category list. -/
theorem four_labels_one_hot_output_layer_witness :
    labels.length = 4 ∧ num_classes = 4 ∧
    (buildModel 400000 [] num_classes).getLast? =
      some (Layer.Dense num_classes Activation.softmax "out_1") ∧
    ∀ row ∈ (dummy_encode_labels ["business", "health"]).1,
      row.length = 4 ∧ row.count 1 = 1 ∧ row.count 0 = 3 :=
  four_labels_one_hot_output_layer 400000 [] ["business", "health"] (by decide)

/-- Helper for C8: `fit` never changes the head of the layer list when that
head is not trainable, whatever the optimizer update does. -/
theorem fit_head_of_frozen (upd : Layer → Layer) (l : Layer)
    (h : layerTrainable l = false) :
    ∀ (n : Nat) (rest : List Layer), (fit upd n (l :: rest)).head? = some l := by
  intro n
  induction n with
  | zero => intro rest; rfl
  | succ n ih =>
      intro rest
      show (fit upd n (trainStep upd (l :: rest))).head? = some l
      have hstep : trainStep upd (l :: rest) =
          l :: (rest.map (fun x => if layerTrainable x then upd x else x)) := by
        simp [trainStep, h]
      rw [hstep]
      exact ih _

/-- Claim C8: the pretrained embedding layer is configured with
`trainable=False`, so after any number of `model.fit` optimizer steps, with
any optimizer update, the model's first layer is still the Embedding layer
holding exactly the weight matrix `embedding_matrix` — the same GloVe matrix
the notebook saved to disk. -/
theorem embedding_layer_frozen_through_fit (upd : Layer → Layer)
    (n vocab_size nclasses : Nat) (embedding_matrix : List (List ℚ)) :
    layerTrainable
      (Layer.Embedding vocab_size 100 embedding_matrix 40 false "embed") = false ∧
    (fit upd n (buildModel vocab_size embedding_matrix nclasses)).head? =
      some (Layer.Embedding vocab_size 100 embedding_matrix 40 false "embed") := by
  refine ⟨rfl, ?_⟩
  exact fit_head_of_frozen upd
    (Layer.Embedding vocab_size 100 embedding_matrix 40 false "embed") rfl n _

/-- Counterexample for C9: on a 3-row input the test set has 1 row, which is
not 20% of the rows (sklearn takes `ceil(0.2·n)` rows, here `ceil(0.6) = 1`,
one third of the input). -/
theorem split_test_fraction_counterexample :
    ¬ (5 * (train_test_split ([0, 1, 2] : List Nat) ([10, 11, 12] : List Nat)
        42).2.1.length = ([0, 1, 2] : List Nat).length) := by
  decide

/-- Claim C9 (amended): the split is deterministic — two runs on equal
`padded_docs` and `encoded_y` produce identical `X_train, X_test, y_train,
y_test` — train and test partition the input rows with no row shared or
dropped (their concatenation is a permutation of the input), and the test set
has `ceil(0.2 · n)` rows, which is exactly 20% of the rows whenever `n` is a
multiple of 5. -/
theorem split_deterministic_partition {α β : Type} (xs xs2 : List α)
    (ys ys2 : List β) (random_state : Nat) (hx : xs = xs2) (hy : ys = ys2) :
    train_test_split xs ys random_state = train_test_split xs2 ys2 random_state ∧
    ((train_test_split xs ys random_state).1 ++
      (train_test_split xs ys random_state).2.1).Perm xs ∧
    ((train_test_split xs ys random_state).2.2.1 ++
      (train_test_split xs ys random_state).2.2.2).Perm ys ∧
    (train_test_split xs ys random_state).2.1.length = (xs.length + 4) / 5 ∧
    (xs.length % 5 = 0 →
      5 * (train_test_split xs ys random_state).2.1.length = xs.length) := by
  subst hx
  subst hy
  refine ⟨rfl, ?_, ?_, ?_, ?_⟩
  · exact ((List.perm_append_comm).trans
      (List.take_append_drop _ _ ▸ List.Perm.refl _)).trans
      (List.rotate_perm xs random_state)
  · exact ((List.perm_append_comm).trans
      (List.take_append_drop _ _ ▸ List.Perm.refl _)).trans
      (List.rotate_perm ys random_state)
  · simp only [train_test_split, List.length_take, List.length_rotate]
    omega
  · intro hmod
    simp only [train_test_split, List.length_take, List.length_rotate]
    omega

/-- Witness for C9 at concrete 5-row inputs: the test set is exactly one of
the five rows. -/
theorem split_deterministic_partition_witness :
    train_test_split ([0, 1, 2, 3, 4] : List Nat) ([5, 6, 7, 8, 9] : List Nat) 42 =
      train_test_split ([0, 1, 2, 3, 4] : List Nat) ([5, 6, 7, 8, 9] : List Nat) 42 ∧
    ((train_test_split ([0, 1, 2, 3, 4] : List Nat) ([5, 6, 7, 8, 9] : List Nat) 42).1 ++
      (train_test_split ([0, 1, 2, 3, 4] : List Nat) ([5, 6, 7, 8, 9] : List Nat) 42).2.1).Perm
      [0, 1, 2, 3, 4] ∧
    ((train_test_split ([0, 1, 2, 3, 4] : List Nat) ([5, 6, 7, 8, 9] : List Nat) 42).2.2.1 ++
      (train_test_split ([0, 1, 2, 3, 4] : List Nat) ([5, 6, 7, 8, 9] : List Nat) 42).2.2.2).Perm
      [5, 6, 7, 8, 9] ∧
    (train_test_split ([0, 1, 2, 3, 4] : List Nat) ([5, 6, 7, 8, 9] : List Nat) 42).2.1.length =
      (([0, 1, 2, 3, 4] : List Nat).length + 4) / 5 ∧
    (([0, 1, 2, 3, 4] : List Nat).length % 5 = 0 →
      5 * (train_test_split ([0, 1, 2, 3, 4] : List Nat)
        ([5, 6, 7, 8, 9] : List Nat) 42).2.1.length = ([0, 1, 2, 3, 4] : List Nat).length) :=
  split_deterministic_partition [0, 1, 2, 3, 4] [0, 1, 2, 3, 4]
    [5, 6, 7, 8, 9] [5, 6, 7, 8, 9] 42 rfl rfl

/-- Claim C10: the model is compiled with loss "binary_crossentropy" (not
categorical cross-entropy) although its output layer is a 4-way softmax, so
the loss minimized by `fit` and reported by `evaluate` is, per example, the
mean of the four independent per-class binary cross-entropy terms. -/
theorem compiled_loss_is_mean_of_binary_terms (vocab_size : Nat)
    (embedding_matrix : List (List ℚ)) :
    compile_config.loss = "binary_crossentropy" ∧
    compile_config.loss ≠ "categorical_crossentropy" ∧
    (buildModel vocab_size embedding_matrix num_classes).getLast? =
      some (Layer.Dense num_classes Activation.softmax "out_1") ∧
    ∀ (log : ℚ → ℚ) (y0 y1 y2 y3 p0 p1 p2 p3 : ℚ),
      keras_loss log compile_config.loss [y0, y1, y2, y3] [p0, p1, p2, p3] =
        (bce_term log y0 p0 + bce_term log y1 p1 +
          bce_term log y2 p2 + bce_term log y3 p3) / 4 := by
  refine ⟨rfl, by decide, rfl, ?_⟩
  intro log y0 y1 y2 y3 p0 p1 p2 p3
  have hname : compile_config.loss = "binary_crossentropy" := rfl
  rw [hname]
  simp [keras_loss, binary_crossentropy]
  ring

end HeadlineClassifier
